import Mathlib

/-!
Verification of the employee/task management application (tasksService +
App component) against its specification.

The remote store is modelled as explicit lists of rows; every remote call
is modelled by the settled local state after the asynchronous round trip
resolves.  A raw service response carries a possibly-null `data` payload
and a possibly-null `error`, mirroring the `{ data, error }` shape the
remote gateway returns.
-/

namespace EMS

/-- A stored row of the remote `tasks` table
(`id, title, description, status, due_date, employee_email, created_at`,
plus the `completed_at` column written by `updateTaskStatus`).
`created_at` is an abstract timestamp used only for ordering. -/
structure TaskRow where
  id : Nat
  title : String
  description : String
  status : String
  due_date : Option String
  employee_email : String
  created_at : Nat
  completed_at : Option String
deriving DecidableEq, Repr

/-- The row shape the task selects return: both list queries project the
column list `id, title, description, status, due_date, employee_email,
created_at` — the `completed_at` column is not selected, so query
results never carry it. -/
structure TaskView where
  id : Nat
  title : String
  description : String
  status : String
  due_date : Option String
  employee_email : String
  created_at : Nat
deriving DecidableEq, Repr

/-- The column projection the task selects apply to a stored row. -/
def projectTaskColumns (t : TaskRow) : TaskView :=
  { id := t.id, title := t.title, description := t.description,
    status := t.status, due_date := t.due_date,
    employee_email := t.employee_email, created_at := t.created_at }

/-- A stored row of the remote `employees` table
(`id, full_name, email, role, status`). -/
structure EmployeeRow where
  id : Nat
  full_name : String
  email : String
  role : String
  status : String
deriving DecidableEq, Repr

/-- A row of the remote `profiles` table (`id, full_name, role`),
selected by `fetchProfile`. -/
structure Profile where
  id : String
  full_name : String
  role : String
deriving DecidableEq, Repr

/-- An authenticated session: the user identifier and email carried by the
opaque credential bundle the auth service issues. -/
structure Session where
  userId : String
  email : String
deriving DecidableEq, Repr

/-- The `{ data, error }` response shape of every remote gateway call:
`data` may be null, `error` is null exactly when the call succeeded
remotely. -/
structure Resp (α : Type) where
  data : Option α
  error : Option String
deriving DecidableEq, Repr

/-- JavaScript `x || null` on an optional string field: an absent value or
the empty string (the only falsy string) collapses to null; every other
string is kept. Used for the `due_date: task.due_date || null`
normalization in `createTask` and `updateTask`. -/
def jsOrNull : Option String → Option String
  | none => none
  | some s => if s = "" then none else some s

/-- The comparator of `.order('created_at', { ascending: false })`:
row `a` may come before row `b` when `b.created_at ≤ a.created_at`. -/
def createdDesc (a b : TaskRow) : Bool :=
  decide (b.created_at ≤ a.created_at)

/-- Remote select on the `tasks` table: rows satisfying the filter,
ordered by `created_at` descending, then projected to the selected
column list (which omits `completed_at`) — semantics of the external
store's query/filter/order/projection contract. -/
def tasksSelect (store : List TaskRow) (pred : TaskRow → Bool) : List TaskView :=
  ((store.filter pred).mergeSort createdDesc).map projectTaskColumns

/-- `getTasksForManager()` (tasksService): select the projected column
list of all task rows, ordered by `created_at` descending; this is the
row list the store hands back on a successful round trip. -/
def getTasksForManager (store : List TaskRow) : List TaskView :=
  tasksSelect store (fun _ => true)

/-- `getTasksForEmployee(email)` (tasksService): same select with the
`.eq('employee_email', email)` filter. -/
def getTasksForEmployee (email : String) (store : List TaskRow) : List TaskView :=
  tasksSelect store (fun t => t.employee_email == email)

/-- Response handling of `getTasksForManager`:
`if (error) throw error; return data || []`. -/
def tasksForManagerFromResp (r : Resp (List TaskView)) : Except String (List TaskView) :=
  match r.error with
  | some e => .error e
  | none => .ok (r.data.getD [])

/-- Response handling of `getTasksForEmployee(email)`:
`if (error) throw error; return data || []`. -/
def tasksForEmployeeFromResp (r : Resp (List TaskView)) : Except String (List TaskView) :=
  match r.error with
  | some e => .error e
  | none => .ok (r.data.getD [])

/-- The task values a form submits to `createTask` / `updateTask`:
`id` is null for a create, `due_date` may be absent or empty. -/
structure TaskInput where
  id : Option Nat
  title : String
  description : String
  status : String
  due_date : Option String
  employee_email : String
deriving DecidableEq, Repr

/-- `createTask(task)` (tasksService): insert one row built from the
submitted fields with `due_date: task.due_date || null`.  `id` and
`created_at` are generated by the store and `completed_at` starts null
(the insert payload does not mention them); they are passed here
explicitly to keep the store model executable. -/
def createTask (task : TaskInput) (newId createdAt : Nat)
    (store : List TaskRow) : List TaskRow :=
  store ++ [{ id := newId,
              title := task.title,
              description := task.description,
              status := task.status,
              due_date := jsOrNull task.due_date,
              employee_email := task.employee_email,
              created_at := createdAt,
              completed_at := none }]

/-- `updateTask(task)` (tasksService): `.update({title, description,
status, due_date: task.due_date || null, employee_email}).eq('id',
task.id)` — every row whose id matches receives the payload fields,
all other columns and rows are untouched. -/
def updateTask (task : TaskInput) (store : List TaskRow) : List TaskRow :=
  store.map (fun t =>
    if task.id = some t.id then
      { t with
        title := task.title,
        description := task.description,
        status := task.status,
        due_date := jsOrNull task.due_date,
        employee_email := task.employee_email }
    else t)

/-- `updateTaskStatus(id, status)` (tasksService): the update payload is
`{ status }`, extended with `completed_at = new Date().toISOString()`
exactly when `status === 'done'`; applied to rows matching
`.eq('id', id)`.  `now` stands for the current-time ISO string. -/
def updateTaskStatus (id : Nat) (status now : String)
    (store : List TaskRow) : List TaskRow :=
  store.map (fun t =>
    if t.id = id then
      if status = "done" then { t with status := status, completed_at := some now }
      else { t with status := status }
    else t)

/-- `deleteTask(id)` (tasksService): `.delete().eq('id', id)`. -/
def deleteTask (id : Nat) (store : List TaskRow) : List TaskRow :=
  store.filter (fun t => !(t.id == id))

/-- Semantics of the external store's `.single()` modifier: exactly one
matching row is returned as `data`; zero or several matching rows make
the call fail with a remote error and a null `data`. -/
def singleRow {α : Type} (rows : List α) : Resp α :=
  match rows with
  | [r] => { data := some r, error := none }
  | _ => { data := none, error := some "JSON object requested, multiple (or no) rows returned" }

/-- The profile state `fetchProfile(userId)` leaves behind: on a remote
error the profile is reset to null (the error is only logged), otherwise
the fetched row is stored. -/
def fetchProfileState (resp : Resp Profile) : Option Profile :=
  match resp.error with
  | some _ => none
  | none => resp.data

/-- The JavaScript test `profile?.role === 'manager'` of the dashboard
chooser: false whenever the profile is null or its role is any value
other than `"manager"`. -/
def optRoleIsManager (profile : Option Profile) : Bool :=
  match profile with
  | some p => p.role == "manager"
  | none => false

/-- What the top-level `App` component renders. -/
inductive View where
  | loadingScreen
  | login
  | managerDash
  | employeeDash
deriving DecidableEq, Repr

/-- The render logic of `App`: the loading screen while the initial
session loads, the login form when there is no session, otherwise the
dashboard chosen by `profile?.role === 'manager'`. -/
def appView (loading : Bool) (session : Option Session) (profile : Option Profile) : View :=
  if loading then View.loadingScreen
  else
    match session with
    | none => View.login
    | some _ =>
      if optRoleIsManager profile then View.managerDash else View.employeeDash

/-- The state owned by the top-level `App` component. -/
structure AppState where
  session : Option Session
  profile : Option Profile
  loading : Bool
  error : String
deriving DecidableEq, Repr

/-- The view an `App` state renders. -/
def appStateView (s : AppState) : View :=
  appView s.loading s.session s.profile

/-- `handleLogin`: clear the error, call `signInWithPassword`; on a
sign-in error set the error message and return (session and profile
untouched); on success store the returned session and, when it carries a
user, fetch the profile. `signIn` is the auth response, `profileResp`
the profile query response consumed only on the success path. -/
def handleLogin (s : AppState) (signIn : Resp Session) (profileResp : Resp Profile) : AppState :=
  let s0 := { s with error := "" }
  match signIn.error with
  | some msg => { s0 with error := msg }
  | none =>
    let s1 := { s0 with session := signIn.data }
    match signIn.data with
    | some _ => { s1 with profile := fetchProfileState profileResp }
    | none => s1

/-- `handleLogout`: `await supabase.auth.signOut()` (its `{ error }`
result is not even destructured), then unconditionally reset session and
profile to null. -/
def handleLogout (s : AppState) (_signOutError : Option String) : AppState :=
  { s with session := none, profile := none }

/-- The form values held by the manager's employee create/edit form
(`id` is null while creating). -/
structure EmployeeFormValues where
  id : Option Nat
  full_name : String
  email : String
  role : String
  status : String
deriving DecidableEq, Repr

/-- The state owned by the `ManagerDashboard` component: the employees
list with its loading/error/editing state, and the independent tasks
list with its own loading/error/editing state. -/
structure ManagerState where
  employees : List EmployeeRow
  loading : Bool
  error : String
  editingEmployee : Option EmployeeFormValues
  tasks : List TaskView
  tasksLoading : Bool
  tasksError : String
  editingTask : Option TaskInput
deriving DecidableEq, Repr

/-- Settled state of `loadEmployees()`: `setLoading(true); setError('')`
precede the round trip; a remote error leaves the employees list alone
and sets the section error, success stores `data || []`. -/
def loadEmployeesStep (s : ManagerState) (resp : Resp (List EmployeeRow)) : ManagerState :=
  match resp.error with
  | some _ => { s with error := "Could not load employees", loading := false }
  | none => { s with error := "", employees := resp.data.getD [], loading := false }

/-- Settled state of `loadTasks()`: `getTasksForManager()` throws on a
remote error, caught into the tasks-section error; success stores the
returned list. -/
def loadTasksStep (s : ManagerState) (resp : Resp (List TaskView)) : ManagerState :=
  match tasksForManagerFromResp resp with
  | .error _ => { s with tasksError := "Could not load tasks", tasksLoading := false }
  | .ok ts => { s with tasksError := "", tasks := ts, tasksLoading := false }

/-- Settled state of `saveTask(taskValues)`: clear the tasks error; if
the create/update mutation throws, set `"Could not save task"` and keep
everything else (the form stays open, the list is not touched); on
success close the form and reload the tasks list. -/
def saveTaskStep (s : ManagerState) (mutationError : Option String)
    (reload : Resp (List TaskView)) : ManagerState :=
  let s0 := { s with tasksError := "" }
  match mutationError with
  | some _ => { s0 with tasksError := "Could not save task" }
  | none => loadTasksStep { s0 with editingTask := none } reload

/-- Settled state of `handleDeleteTask(id)`: nothing happens without the
confirmation; a failing delete sets `"Could not delete task"` and
touches nothing else; success reloads the tasks list. -/
def handleDeleteTaskStep (s : ManagerState) (confirmDelete : Bool)
    (deleteError : Option String) (reload : Resp (List TaskView)) : ManagerState :=
  if !confirmDelete then s
  else
    match deleteError with
    | some _ => { s with tasksError := "Could not delete task" }
    | none => loadTasksStep s reload

/-- Settled state of `saveEmployee(formValues)`: clear the employees
error; a failing update/insert sets the matching employees-section
message and returns (form open, lists untouched); success closes the
form and reloads the employees list. -/
def saveEmployeeStep (s : ManagerState) (formId : Option Nat)
    (mutationError : Option String) (reload : Resp (List EmployeeRow)) : ManagerState :=
  let s0 := { s with error := "" }
  match mutationError with
  | some _ =>
    { s0 with error := if formId.isSome then "Could not update employee" else "Could not create employee" }
  | none => loadEmployeesStep { s0 with editingEmployee := none } reload

/-- The state owned by the `EmployeeDashboard` component. -/
structure EmpDashState where
  employee : Option EmployeeRow
  loading : Bool
  error : String
  tasks : List TaskView
  tasksLoading : Bool
  tasksError : String
deriving DecidableEq, Repr

/-- The initial `useState` values of `EmployeeDashboard`. -/
def initialEmpDashState : EmpDashState :=
  { employee := none, loading := true, error := "",
    tasks := [], tasksLoading := true, tasksError := "" }

/-- Settled state of the employee self-lookup round trip: a remote error
(including the `.single()` failure for zero or several rows) sets the
profile-load error and leaves the employee record alone; success stores
the returned record. -/
def loadEmployeeStep (s : EmpDashState) (resp : Resp EmployeeRow) : EmpDashState :=
  match resp.error with
  | some _ => { s with error := "Could not load your employee record", loading := false }
  | none => { s with employee := resp.data, loading := false, error := "" }

/-- `loadEmployee()` of `EmployeeDashboard` composed with the store
semantics: select from `employees` with `.eq('email', userEmail)` and
`.single()`, then apply the settled state update. -/
def loadEmployee (userEmail : String) (store : List EmployeeRow)
    (s : EmpDashState) : EmpDashState :=
  loadEmployeeStep s (singleRow (store.filter (fun e => e.email == userEmail)))

/-- Settled state of `loadEmployeeTasks()`: `getTasksForEmployee` throws
on a remote error, caught into the tasks-section error; success stores
the returned list. -/
def loadEmployeeTasksStep (s : EmpDashState) (resp : Resp (List TaskView)) : EmpDashState :=
  match tasksForEmployeeFromResp resp with
  | .error _ => { s with tasksError := "Could not load your tasks", tasksLoading := false }
  | .ok ts => { s with tasksError := "", tasks := ts, tasksLoading := false }

/-- `handleStatusChange(id, newStatus)` of `EmployeeDashboard` against
the store: run `updateTaskStatus`, then reload via
`getTasksForEmployee(userEmail)` and store the fresh list; a throw from
either call is caught into `"Could not update task status"`.  Returns
the store after the mutation together with the new component state. -/
def handleStatusChange (userEmail : String) (id : Nat) (newStatus now : String)
    (updErr reloadErr : Option String) (store : List TaskRow)
    (s : EmpDashState) : List TaskRow × EmpDashState :=
  match updErr with
  | some _ => (store, { s with tasksError := "Could not update task status" })
  | none =>
    let store' := updateTaskStatus id newStatus now store
    match reloadErr with
    | some _ => (store', { s with tasksError := "Could not update task status" })
    | none => (store', { s with tasks := getTasksForEmployee userEmail store' })

/-! Sample rows used by witness instantiations. -/

/-- A sample stored task row. -/
def taskA : TaskRow :=
  { id := 1, title := "Write report", description := "Quarterly report",
    status := "todo", due_date := none, employee_email := "alice@ems.com",
    created_at := 5, completed_at := none }

/-- A second sample stored task row. -/
def taskB : TaskRow :=
  { id := 2, title := "Ship build", description := "",
    status := "in_progress", due_date := some "2025-01-31",
    employee_email := "bob@ems.com", created_at := 9, completed_at := none }

/-! Helper lemmas about the modelled store select. -/

/-- The descending comparator is transitive. -/
theorem createdDesc_trans (a b c : TaskRow) :
    createdDesc a b = true → createdDesc b c = true → createdDesc a c = true := by
  simp only [createdDesc, decide_eq_true_eq]
  exact fun h1 h2 => le_trans h2 h1

/-- The descending comparator is total. -/
theorem createdDesc_total (a b : TaskRow) :
    (createdDesc a b || createdDesc b a) = true := by
  simp only [createdDesc, Bool.or_eq_true, decide_eq_true_eq]
  exact Nat.le_total b.created_at a.created_at

/-- Membership in a modelled select: the returned views are exactly the
projections of the store rows passing the filter. -/
theorem mem_tasksSelect (store : List TaskRow) (pred : TaskRow → Bool) (v : TaskView) :
    v ∈ tasksSelect store pred ↔
      ∃ t, t ∈ store ∧ pred t = true ∧ projectTaskColumns t = v := by
  simp [tasksSelect, List.mem_map, List.mem_mergeSort, List.mem_filter, and_assoc]

/-- A modelled select is a permutation of the projected filtered store. -/
theorem tasksSelect_perm (store : List TaskRow) (pred : TaskRow → Bool) :
    (tasksSelect store pred).Perm ((store.filter pred).map projectTaskColumns) :=
  (List.mergeSort_perm (store.filter pred) createdDesc).map projectTaskColumns

/-- A modelled select is ordered by `created_at` descending. -/
theorem tasksSelect_sorted (store : List TaskRow) (pred : TaskRow → Bool) :
    List.Pairwise (fun a b => b.created_at ≤ a.created_at) (tasksSelect store pred) := by
  have h := List.sorted_mergeSort createdDesc_trans createdDesc_total (store.filter pred)
  have h2 : List.Pairwise (fun a b : TaskRow => b.created_at ≤ a.created_at)
      ((store.filter pred).mergeSort createdDesc) :=
    h.imp (fun hab => by simpa [createdDesc] using hab)
  exact List.pairwise_map.2 (h2.imp (fun hab => hab))

/-- C3: for every store content and every email, `getTasksForEmployee`
returns exactly the (projected) tasks whose `employee_email` equals the
email (a permutation of the projected filtered store, hence no others),
`getTasksForManager` returns all tasks, and both results are ordered by
`created_at` descending. -/
theorem tasks_queries_filter_and_order (store : List TaskRow) (email : String) :
    (∀ v : TaskView, v ∈ getTasksForEmployee email store ↔
      ∃ t, t ∈ store ∧ t.employee_email = email ∧ projectTaskColumns t = v) ∧
    (getTasksForEmployee email store).Perm
      ((store.filter (fun t => t.employee_email == email)).map projectTaskColumns) ∧
    List.Pairwise (fun a b => b.created_at ≤ a.created_at)
      (getTasksForEmployee email store) ∧
    (∀ v : TaskView, v ∈ getTasksForManager store ↔
      ∃ t, t ∈ store ∧ projectTaskColumns t = v) ∧
    (getTasksForManager store).Perm (store.map projectTaskColumns) ∧
    List.Pairwise (fun a b => b.created_at ≤ a.created_at)
      (getTasksForManager store) := by
  refine ⟨fun v => ?_, tasksSelect_perm _ _, tasksSelect_sorted _ _,
    fun v => ?_, ?_, tasksSelect_sorted _ _⟩
  · simpa [beq_iff_eq] using mem_tasksSelect store (fun t => t.employee_email == email) v
  · simpa using mem_tasksSelect store (fun _ => true) v
  · simpa using tasksSelect_perm store (fun _ => true)

/-- C9: when the remote query succeeds but yields no rows (`data` null or
the empty list), both task list functions return the empty list — never
null — so callers can iterate without a null check. -/
theorem tasks_empty_data_gives_empty_list (d1 d2 : Option (List TaskView))
    (h1 : d1 = none ∨ d1 = some []) (h2 : d2 = none ∨ d2 = some []) :
    tasksForManagerFromResp { data := d1, error := none } = Except.ok [] ∧
    tasksForEmployeeFromResp { data := d2, error := none } = Except.ok [] := by
  constructor
  · rcases h1 with h | h <;> simp [tasksForManagerFromResp, h]
  · rcases h2 with h | h <;> simp [tasksForEmployeeFromResp, h]

/-- Witness for C9 at `data = none` and `data = some []`. -/
theorem tasks_empty_data_gives_empty_list_witness :
    ((none : Option (List TaskView)) = none ∨ (none : Option (List TaskView)) = some []) ∧
    ((some [] : Option (List TaskView)) = none ∨ (some [] : Option (List TaskView)) = some []) ∧
    (tasksForManagerFromResp { data := none, error := none } = Except.ok [] ∧
     tasksForEmployeeFromResp { data := some [], error := none } = Except.ok []) :=
  ⟨Or.inl rfl, Or.inr rfl,
    tasks_empty_data_gives_empty_list none (some []) (Or.inl rfl) (Or.inr rfl)⟩

/-- C2: `updateTaskStatus` touches only rows whose id matches; a matching
row keeps every field except `status`, and `completed_at` is set to the
non-null current timestamp exactly on the transition to `"done"` while
`"todo"` and `"in_progress"` leave it unchanged. -/
theorem updateTaskStatus_frame (id : Nat) (status now : String) (store : List TaskRow)
    (i : Nat) (h : i < store.length)
    (h2 : i < (updateTaskStatus id status now store).length) :
    ((store.get ⟨i, h⟩).id ≠ id →
      (updateTaskStatus id status now store).get ⟨i, h2⟩ = store.get ⟨i, h⟩) ∧
    ((store.get ⟨i, h⟩).id = id →
      ((updateTaskStatus id status now store).get ⟨i, h2⟩).id = (store.get ⟨i, h⟩).id ∧
      ((updateTaskStatus id status now store).get ⟨i, h2⟩).status = status ∧
      ((updateTaskStatus id status now store).get ⟨i, h2⟩).title = (store.get ⟨i, h⟩).title ∧
      ((updateTaskStatus id status now store).get ⟨i, h2⟩).description = (store.get ⟨i, h⟩).description ∧
      ((updateTaskStatus id status now store).get ⟨i, h2⟩).due_date = (store.get ⟨i, h⟩).due_date ∧
      ((updateTaskStatus id status now store).get ⟨i, h2⟩).employee_email = (store.get ⟨i, h⟩).employee_email ∧
      ((updateTaskStatus id status now store).get ⟨i, h2⟩).created_at = (store.get ⟨i, h⟩).created_at ∧
      (status = "done" →
        ((updateTaskStatus id status now store).get ⟨i, h2⟩).completed_at = some now) ∧
      (status = "todo" ∨ status = "in_progress" →
        ((updateTaskStatus id status now store).get ⟨i, h2⟩).completed_at =
          (store.get ⟨i, h⟩).completed_at)) := by
  simp only [updateTaskStatus, List.get_eq_getElem, List.getElem_map]
  constructor
  · intro hid
    simp [hid]
  · intro hid
    by_cases hdone : status = "done"
    · subst hdone
      refine ⟨by simp [hid], by simp [hid], by simp [hid], by simp [hid], by simp [hid],
        by simp [hid], by simp [hid], fun _ => by simp [hid], fun hc => ?_⟩
      rcases hc with hc | hc <;> simp at hc
    · refine ⟨by simp [hid, hdone], by simp [hid, hdone], by simp [hid, hdone],
        by simp [hid, hdone], by simp [hid, hdone], by simp [hid, hdone],
        by simp [hid, hdone], fun hc => absurd hc hdone, fun _ => by simp [hid, hdone]⟩

/-- Witness for C2: the `"done"` transition on the first of two stored
rows. -/
theorem updateTaskStatus_frame_witness :
    0 < ([taskA, taskB] : List TaskRow).length ∧
    0 < (updateTaskStatus 1 "done" "2025-02-01T09:00:00Z" [taskA, taskB]).length ∧
    (((([taskA, taskB] : List TaskRow).get ⟨0, by decide⟩).id ≠ 1 →
      (updateTaskStatus 1 "done" "2025-02-01T09:00:00Z" [taskA, taskB]).get ⟨0, by decide⟩ =
        ([taskA, taskB] : List TaskRow).get ⟨0, by decide⟩) ∧
     ((([taskA, taskB] : List TaskRow).get ⟨0, by decide⟩).id = 1 →
      ((updateTaskStatus 1 "done" "2025-02-01T09:00:00Z" [taskA, taskB]).get ⟨0, by decide⟩).id =
        (([taskA, taskB] : List TaskRow).get ⟨0, by decide⟩).id ∧
      ((updateTaskStatus 1 "done" "2025-02-01T09:00:00Z" [taskA, taskB]).get ⟨0, by decide⟩).status = "done" ∧
      ((updateTaskStatus 1 "done" "2025-02-01T09:00:00Z" [taskA, taskB]).get ⟨0, by decide⟩).title =
        (([taskA, taskB] : List TaskRow).get ⟨0, by decide⟩).title ∧
      ((updateTaskStatus 1 "done" "2025-02-01T09:00:00Z" [taskA, taskB]).get ⟨0, by decide⟩).description =
        (([taskA, taskB] : List TaskRow).get ⟨0, by decide⟩).description ∧
      ((updateTaskStatus 1 "done" "2025-02-01T09:00:00Z" [taskA, taskB]).get ⟨0, by decide⟩).due_date =
        (([taskA, taskB] : List TaskRow).get ⟨0, by decide⟩).due_date ∧
      ((updateTaskStatus 1 "done" "2025-02-01T09:00:00Z" [taskA, taskB]).get ⟨0, by decide⟩).employee_email =
        (([taskA, taskB] : List TaskRow).get ⟨0, by decide⟩).employee_email ∧
      ((updateTaskStatus 1 "done" "2025-02-01T09:00:00Z" [taskA, taskB]).get ⟨0, by decide⟩).created_at =
        (([taskA, taskB] : List TaskRow).get ⟨0, by decide⟩).created_at ∧
      (("done" : String) = "done" →
        ((updateTaskStatus 1 "done" "2025-02-01T09:00:00Z" [taskA, taskB]).get ⟨0, by decide⟩).completed_at =
          some "2025-02-01T09:00:00Z") ∧
      (("done" : String) = "todo" ∨ ("done" : String) = "in_progress" →
        ((updateTaskStatus 1 "done" "2025-02-01T09:00:00Z" [taskA, taskB]).get ⟨0, by decide⟩).completed_at =
          (([taskA, taskB] : List TaskRow).get ⟨0, by decide⟩).completed_at))) :=
  ⟨by decide, by decide,
    updateTaskStatus_frame 1 "done" "2025-02-01T09:00:00Z" [taskA, taskB] 0
      (by decide) (by decide)⟩

/-- A sample authenticated session. -/
def sampleSession : Session := { userId := "u1", email := "alice@ems.com" }

/-- A sample profile row with the manager role. -/
def managerProfile : Profile :=
  { id := "u1", full_name := "Alice", role := "manager" }

/-- C1: with the initial load finished and an authenticated session, the
Manager Dashboard renders iff the resolved profile has role `"manager"`;
a profile with any other role, a null profile, and in particular the
null profile left by a failed profile fetch all render the Employee
Dashboard. -/
theorem dashboard_role_gate (s : Session) (profile : Option Profile) :
    (appView false (some s) profile = View.managerDash ↔
      ∃ p, profile = some p ∧ p.role = "manager") ∧
    (∀ p, profile = some p → p.role ≠ "manager" →
      appView false (some s) profile = View.employeeDash) ∧
    (profile = none → appView false (some s) profile = View.employeeDash) ∧
    (∀ resp : Resp Profile, resp.error.isSome = true →
      appView false (some s) (fetchProfileState resp) = View.employeeDash) := by
  refine ⟨?_, ?_, ?_, ?_⟩
  · cases profile with
    | none => simp [appView, optRoleIsManager]
    | some p =>
      by_cases hr : p.role = "manager" <;> simp [appView, optRoleIsManager, hr]
  · intro p hp hr
    subst hp
    simp [appView, optRoleIsManager, hr]
  · intro hp
    subst hp
    simp [appView, optRoleIsManager]
  · intro resp he
    have hnone : fetchProfileState resp = none := by
      unfold fetchProfileState
      cases hre : resp.error with
      | some e => rfl
      | none => rw [hre] at he; simp at he
    rw [hnone]
    simp [appView, optRoleIsManager]

/-- Witness for C1: a manager profile renders the Manager Dashboard and
a null profile renders the Employee Dashboard. -/
theorem dashboard_role_gate_witness :
    appView false (some sampleSession) (some managerProfile) = View.managerDash ∧
    appView false (some sampleSession) none = View.employeeDash :=
  ⟨(dashboard_role_gate sampleSession (some managerProfile)).1.mpr
      ⟨managerProfile, rfl, rfl⟩,
   (dashboard_role_gate sampleSession none).2.2.1 rfl⟩

/-- An absent or empty submitted date collapses to null. -/
theorem jsOrNull_none_of (d : Option String) (h : d = none ∨ d = some "") :
    jsOrNull d = none := by
  rcases h with h | h <;> simp [h, jsOrNull]

/-- A non-empty submitted date is kept as is. -/
theorem jsOrNull_some_of (v : String) (hv : v ≠ "") : jsOrNull (some v) = some v := by
  simp [jsOrNull, hv]

/-- C5: `createTask` inserts one new row carrying the submitted fields
with `due_date` stored as null exactly when it was absent or empty, and
`updateTask` applies the same normalization in a full-field update of
the rows matching the task's id, leaving `created_at`, `completed_at`
and all non-matching rows unchanged. -/
theorem task_writes_normalize_due_date (task : TaskInput) (newId createdAt : Nat)
    (store : List TaskRow) (i : Nat) (h : i < store.length)
    (h2 : i < (updateTask task store).length) :
    (∃ r : TaskRow, createTask task newId createdAt store = store ++ [r] ∧
      r.title = task.title ∧ r.description = task.description ∧
      r.status = task.status ∧ r.employee_email = task.employee_email ∧
      ((task.due_date = none ∨ task.due_date = some "") → r.due_date = none) ∧
      (∀ v, task.due_date = some v → v ≠ "" → r.due_date = some v)) ∧
    ((task.id ≠ some (store.get ⟨i, h⟩).id →
      (updateTask task store).get ⟨i, h2⟩ = store.get ⟨i, h⟩) ∧
     (task.id = some (store.get ⟨i, h⟩).id →
      ((updateTask task store).get ⟨i, h2⟩).id = (store.get ⟨i, h⟩).id ∧
      ((updateTask task store).get ⟨i, h2⟩).title = task.title ∧
      ((updateTask task store).get ⟨i, h2⟩).description = task.description ∧
      ((updateTask task store).get ⟨i, h2⟩).status = task.status ∧
      ((updateTask task store).get ⟨i, h2⟩).employee_email = task.employee_email ∧
      ((updateTask task store).get ⟨i, h2⟩).created_at = (store.get ⟨i, h⟩).created_at ∧
      ((updateTask task store).get ⟨i, h2⟩).completed_at = (store.get ⟨i, h⟩).completed_at ∧
      ((task.due_date = none ∨ task.due_date = some "") →
        ((updateTask task store).get ⟨i, h2⟩).due_date = none) ∧
      (∀ v, task.due_date = some v → v ≠ "" →
        ((updateTask task store).get ⟨i, h2⟩).due_date = some v))) := by
  constructor
  · refine ⟨_, rfl, rfl, rfl, rfl, rfl, fun hd => jsOrNull_none_of _ hd,
      fun v hv hne => ?_⟩
    show jsOrNull task.due_date = some v
    rw [hv]
    exact jsOrNull_some_of v hne
  · simp only [updateTask, List.get_eq_getElem, List.getElem_map]
    constructor
    · intro hne
      simp [hne]
    · intro hid
      refine ⟨by simp [hid], by simp [hid], by simp [hid], by simp [hid],
        by simp [hid], by simp [hid], by simp [hid],
        fun hd => ?_, fun v hv hne => ?_⟩
      · have : jsOrNull task.due_date = none := jsOrNull_none_of _ hd
        simp [hid, this]
      · have : jsOrNull task.due_date = some v := by
          rw [hv]; exact jsOrNull_some_of v hne
        simp [hid, this]

/-- The task values of an edit that submits an empty due date. -/
def sampleEdit : TaskInput :=
  { id := some 1, title := "Write final report", description := "Quarterly report",
    status := "in_progress", due_date := some "", employee_email := "alice@ems.com" }

/-- Witness for C5: the empty submitted due date of `sampleEdit` is
stored as null on the matching row and the other row is untouched. -/
theorem task_writes_normalize_due_date_witness :
    ((updateTask sampleEdit [taskA, taskB]).get ⟨0, by decide⟩).due_date = none ∧
    ((updateTask sampleEdit [taskA, taskB]).get ⟨0, by decide⟩).title = sampleEdit.title ∧
    ((updateTask sampleEdit [taskA, taskB]).get ⟨0, by decide⟩).completed_at =
      (([taskA, taskB] : List TaskRow).get ⟨0, by decide⟩).completed_at ∧
    (updateTask sampleEdit [taskA, taskB]).get ⟨1, by decide⟩ =
      ([taskA, taskB] : List TaskRow).get ⟨1, by decide⟩ :=
  ⟨((task_writes_normalize_due_date sampleEdit 7 42 [taskA, taskB] 0
      (by decide) (by decide)).2.2 rfl).2.2.2.2.2.2.2.1 (Or.inr rfl),
   ((task_writes_normalize_due_date sampleEdit 7 42 [taskA, taskB] 0
      (by decide) (by decide)).2.2 rfl).2.1,
   ((task_writes_normalize_due_date sampleEdit 7 42 [taskA, taskB] 0
      (by decide) (by decide)).2.2 rfl).2.2.2.2.2.2.1,
   (task_writes_normalize_due_date sampleEdit 7 42 [taskA, taskB] 1
      (by decide) (by decide)).2.1 (by decide)⟩

/-- Counterexample to C4 as stated: two server stores that differ only
in the `completed_at` the mutation wrote (different current timestamps)
produce identical reloaded task lists, because the reload's select
projects `completed_at` away — so the reloaded list cannot reflect the
`completed_at` value stored by the server. -/
theorem status_change_reload_drops_completed_at :
    (handleStatusChange "alice@ems.com" 1 "done" "2025-02-01T09:00:00Z"
        none none [taskA] initialEmpDashState).1 ≠
      (handleStatusChange "alice@ems.com" 1 "done" "2025-03-15T12:30:00Z"
        none none [taskA] initialEmpDashState).1 ∧
    (handleStatusChange "alice@ems.com" 1 "done" "2025-02-01T09:00:00Z"
        none none [taskA] initialEmpDashState).2.tasks =
      (handleStatusChange "alice@ems.com" 1 "done" "2025-03-15T12:30:00Z"
        none none [taskA] initialEmpDashState).2.tasks := by
  refine ⟨by decide, ?_⟩
  show getTasksForEmployee "alice@ems.com"
      (updateTaskStatus 1 "done" "2025-02-01T09:00:00Z" [taskA]) =
    getTasksForEmployee "alice@ems.com"
      (updateTaskStatus 1 "done" "2025-03-15T12:30:00Z" [taskA])
  simp [getTasksForEmployee, tasksSelect, updateTaskStatus, taskA, projectTaskColumns]

/-- C4 (amended): after an employee's status change, the reloaded task
list is exactly the employee's fresh server-side view of the mutated
store and contains the mutated task with its new status; the reload's
select does not fetch `completed_at`, so the reloaded rows carry no
`completed_at` value (see the counterexample). -/
theorem status_change_reload_reflects (userEmail : String) (id : Nat)
    (newStatus now : String) (store : List TaskRow) (s : EmpDashState) (t : TaskRow)
    (ht : t ∈ store) (hid : t.id = id) (hemail : t.employee_email = userEmail) :
    (handleStatusChange userEmail id newStatus now none none store s).2.tasks =
      getTasksForEmployee userEmail
        (handleStatusChange userEmail id newStatus now none none store s).1 ∧
    ∃ u ∈ (handleStatusChange userEmail id newStatus now none none store s).2.tasks,
      u.id = id ∧ u.status = newStatus ∧ u.employee_email = userEmail := by
  refine ⟨rfl, ?_⟩
  by_cases hdone : newStatus = "done"
  · refine ⟨projectTaskColumns { t with status := newStatus, completed_at := some now },
      ?_, hid, rfl, hemail⟩
    show projectTaskColumns { t with status := newStatus, completed_at := some now } ∈
      tasksSelect (updateTaskStatus id newStatus now store)
        (fun r => r.employee_email == userEmail)
    refine (mem_tasksSelect _ _ _).2
      ⟨{ t with status := newStatus, completed_at := some now }, ?_, ?_, rfl⟩
    · unfold updateTaskStatus
      exact List.mem_map.2 ⟨t, ht, by simp [hid, hdone]⟩
    · simp [hemail]
  · refine ⟨projectTaskColumns { t with status := newStatus }, ?_, hid, rfl, hemail⟩
    show projectTaskColumns { t with status := newStatus } ∈
      tasksSelect (updateTaskStatus id newStatus now store)
        (fun r => r.employee_email == userEmail)
    refine (mem_tasksSelect _ _ _).2 ⟨{ t with status := newStatus }, ?_, ?_, rfl⟩
    · unfold updateTaskStatus
      exact List.mem_map.2 ⟨t, ht, by simp [hid, hdone]⟩
    · simp [hemail]

/-- Witness for C4: the reloaded list after marking `taskA` done equals
the fresh server-side view of the mutated store. -/
theorem status_change_reload_reflects_witness :
    taskA ∈ ([taskA] : List TaskRow) ∧ taskA.id = 1 ∧
    taskA.employee_email = "alice@ems.com" ∧
    (handleStatusChange "alice@ems.com" 1 "done" "2025-02-01T09:00:00Z"
        none none [taskA] initialEmpDashState).2.tasks =
      getTasksForEmployee "alice@ems.com"
        (handleStatusChange "alice@ems.com" 1 "done" "2025-02-01T09:00:00Z"
          none none [taskA] initialEmpDashState).1 :=
  ⟨by decide, by decide, by decide,
    (status_change_reload_reflects "alice@ems.com" 1 "done" "2025-02-01T09:00:00Z"
      [taskA] initialEmpDashState taskA (by decide) (by decide) (by decide)).1⟩

/-- C6: every failing Manager Dashboard list load or mutation sets only
its own section-scoped error message: the other section's list, error
and editing state are untouched, and the list a failed mutation targeted
is left exactly as it was (local state changes only after a successful
round trip). -/
theorem manager_failure_scoping (s : ManagerState) (e : String)
    (d1 : Option (List EmployeeRow)) (d2 : Option (List TaskView))
    (fid : Option Nat) (reloadT : Resp (List TaskView))
    (reloadE : Resp (List EmployeeRow)) :
    loadEmployeesStep s { data := d1, error := some e } =
      { s with error := "Could not load employees", loading := false } ∧
    loadTasksStep s { data := d2, error := some e } =
      { s with tasksError := "Could not load tasks", tasksLoading := false } ∧
    saveTaskStep s (some e) reloadT = { s with tasksError := "Could not save task" } ∧
    handleDeleteTaskStep s true (some e) reloadT =
      { s with tasksError := "Could not delete task" } ∧
    saveEmployeeStep s fid (some e) reloadE =
      { s with error := if fid.isSome then "Could not update employee"
                        else "Could not create employee" } :=
  ⟨rfl, rfl, rfl, rfl, rfl⟩

/-- A sample stored employee row. -/
def empAlice : EmployeeRow :=
  { id := 1, full_name := "Alice", email := "alice@ems.com",
    role := "employee", status := "active" }

/-- A second sample stored employee row. -/
def empBob : EmployeeRow :=
  { id := 2, full_name := "Bob", email := "bob@ems.com",
    role := "manager", status := "active" }

/-- C7: the Employee Dashboard self-lookup selects the single employee
row whose email equals the session email; when exactly one row matches
it is stored (and its email is the session email), and when zero or
several rows match the lookup fails, the inline profile-load error is
set and no profile record is present. -/
theorem employee_self_lookup (userEmail : String) (store : List EmployeeRow) :
    (∀ r : EmployeeRow, store.filter (fun e => e.email == userEmail) = [r] →
      (loadEmployee userEmail store initialEmpDashState).employee = some r ∧
      (loadEmployee userEmail store initialEmpDashState).error = "" ∧
      r.email = userEmail) ∧
    ((store.filter (fun e => e.email == userEmail)).length ≠ 1 →
      (loadEmployee userEmail store initialEmpDashState).employee = none ∧
      (loadEmployee userEmail store initialEmpDashState).error =
        "Could not load your employee record") := by
  constructor
  · intro r hr
    have hmem : r ∈ store.filter (fun e => e.email == userEmail) := by
      rw [hr]
      exact List.mem_singleton_self r
    have hre : r.email = userEmail := by
      simpa [beq_iff_eq] using (List.mem_filter.1 hmem).2
    unfold loadEmployee
    rw [hr]
    exact ⟨rfl, rfl, hre⟩
  · intro hlen
    unfold loadEmployee
    cases hf : store.filter (fun e => e.email == userEmail) with
    | nil => exact ⟨rfl, rfl⟩
    | cons a tl =>
      cases tl with
      | nil => exact absurd (by rw [hf]; rfl) hlen
      | cons b tl2 => exact ⟨rfl, rfl⟩

/-- Witness for C7: a unique match stores the row, an unmatched email
sets the inline error and leaves no profile. -/
theorem employee_self_lookup_witness :
    ([empAlice, empBob].filter (fun e => e.email == "alice@ems.com")) = [empAlice] ∧
    (loadEmployee "alice@ems.com" [empAlice, empBob] initialEmpDashState).employee =
      some empAlice ∧
    (loadEmployee "alice@ems.com" [empAlice, empBob] initialEmpDashState).error = "" ∧
    (loadEmployee "carol@ems.com" [empAlice, empBob] initialEmpDashState).employee = none ∧
    (loadEmployee "carol@ems.com" [empAlice, empBob] initialEmpDashState).error =
      "Could not load your employee record" :=
  ⟨by decide,
   ((employee_self_lookup "alice@ems.com" [empAlice, empBob]).1 empAlice (by decide)).1,
   ((employee_self_lookup "alice@ems.com" [empAlice, empBob]).1 empAlice (by decide)).2.1,
   ((employee_self_lookup "carol@ems.com" [empAlice, empBob]).2 (by decide)).1,
   ((employee_self_lookup "carol@ems.com" [empAlice, empBob]).2 (by decide)).2⟩

/-- C8: when the auth service rejects a sign-in, the session stays null,
the rejection message is stored for the login form, and the app still
renders the login view — neither dashboard. -/
theorem login_failure_no_dashboard (s : AppState) (msg : String)
    (d : Option Session) (profileResp : Resp Profile)
    (hs : s.session = none) (hl : s.loading = false) :
    (handleLogin s { data := d, error := some msg } profileResp).session = none ∧
    (handleLogin s { data := d, error := some msg } profileResp).profile = s.profile ∧
    (handleLogin s { data := d, error := some msg } profileResp).error = msg ∧
    appStateView (handleLogin s { data := d, error := some msg } profileResp) =
      View.login := by
  have hred : handleLogin s { data := d, error := some msg } profileResp =
      { s with error := msg } := rfl
  rw [hred]
  refine ⟨hs, rfl, rfl, ?_⟩
  simp [appStateView, appView, hs, hl]

/-- The anonymous app state showing the login form. -/
def loggedOutState : AppState :=
  { session := none, profile := none, loading := false, error := "" }

/-- Witness for C8 at a concrete rejected sign-in. -/
theorem login_failure_no_dashboard_witness :
    loggedOutState.session = none ∧ loggedOutState.loading = false ∧
    (handleLogin loggedOutState
      { data := none, error := some "Invalid login credentials" }
      { data := none, error := none }).session = none ∧
    (handleLogin loggedOutState
      { data := none, error := some "Invalid login credentials" }
      { data := none, error := none }).error = "Invalid login credentials" ∧
    appStateView (handleLogin loggedOutState
      { data := none, error := some "Invalid login credentials" }
      { data := none, error := none }) = View.login :=
  ⟨rfl, rfl,
   (login_failure_no_dashboard loggedOutState "Invalid login credentials" none
     { data := none, error := none } rfl rfl).1,
   (login_failure_no_dashboard loggedOutState "Invalid login credentials" none
     { data := none, error := none } rfl rfl).2.2.1,
   (login_failure_no_dashboard loggedOutState "Invalid login credentials" none
     { data := none, error := none } rfl rfl).2.2.2⟩

/-- C10: `handleLogout` nulls both session and profile no matter what the
remote sign-out reported, so once loading is over the login form
renders. -/
theorem logout_always_resets (s : AppState) (e : Option String) :
    (handleLogout s e).session = none ∧ (handleLogout s e).profile = none ∧
    ((handleLogout s e).loading = false →
      appStateView (handleLogout s e) = View.login) := by
  refine ⟨rfl, rfl, fun hl => ?_⟩
  have hl' : s.loading = false := hl
  simp [appStateView, handleLogout, appView, hl']

/-- An authenticated app state. -/
def loggedInState : AppState :=
  { session := some sampleSession, profile := some managerProfile,
    loading := false, error := "" }

/-- Witness for C3 at a two-row store. -/
theorem tasks_queries_filter_and_order_witness :
    projectTaskColumns taskA ∈ getTasksForEmployee "alice@ems.com" [taskA, taskB] ∧
    (getTasksForManager [taskA, taskB]).Perm
      (([taskA, taskB] : List TaskRow).map projectTaskColumns) ∧
    List.Pairwise (fun a b => b.created_at ≤ a.created_at)
      (getTasksForManager [taskA, taskB]) :=
  ⟨((tasks_queries_filter_and_order [taskA, taskB] "alice@ems.com").1
      (projectTaskColumns taskA)).mpr ⟨taskA, by decide, rfl, rfl⟩,
   (tasks_queries_filter_and_order [taskA, taskB] "alice@ems.com").2.2.2.2.1,
   (tasks_queries_filter_and_order [taskA, taskB] "alice@ems.com").2.2.2.2.2⟩

/-- A sample settled Manager Dashboard state. -/
def sampleManagerState : ManagerState :=
  { employees := [empAlice], loading := false, error := "",
    editingEmployee := none, tasks := [projectTaskColumns taskA],
    tasksLoading := false, tasksError := "", editingTask := some sampleEdit }

/-- Witness for C6 at a concrete dashboard state and failure. -/
theorem manager_failure_scoping_witness :
    saveTaskStep sampleManagerState (some "boom") { data := none, error := none } =
      { sampleManagerState with tasksError := "Could not save task" } ∧
    loadEmployeesStep sampleManagerState { data := none, error := some "boom" } =
      { sampleManagerState with error := "Could not load employees", loading := false } :=
  ⟨(manager_failure_scoping sampleManagerState "boom" none none none
      { data := none, error := none } { data := none, error := none }).2.2.1,
   (manager_failure_scoping sampleManagerState "boom" none none none
      { data := none, error := none } { data := none, error := none }).1⟩

/-- Witness for C10 at a failing remote sign-out. -/
theorem logout_always_resets_witness :
    (handleLogout loggedInState (some "network error")).session = none ∧
    (handleLogout loggedInState (some "network error")).profile = none ∧
    appStateView (handleLogout loggedInState (some "network error")) = View.login :=
  ⟨(logout_always_resets loggedInState (some "network error")).1,
   (logout_always_resets loggedInState (some "network error")).2.1,
   (logout_always_resets loggedInState (some "network error")).2.2 rfl⟩

end EMS
